import Mathlib

/-!
Verification of the wide-schema decoder of the Student-Portfolio backend.

The definitions below are a shallow embedding of `src/app.js` (the
horizontal-format variant; the legacy variant in `src/unnamed/part_000` is
embedded only where a claim depends on it).  JavaScript numbers that can be
NaN are embedded as `Option ℚ` with `none` standing for NaN; machine floats
are modelled by exact rationals, which agrees with the source on every value
the claims mention.  Cells are strings; reading past the end of a row gives
`undefined` in JavaScript, which every use site treats as an empty cell.
-/

namespace StudentPortfolio

/-- A data-row cell at index `i`.  JavaScript indexing past the end of the
row yields `undefined`; every decoder use site collapses that to the empty
string (`row[i] || ''`, falsiness tests), which `getD` mirrors. -/
def cell (row : List String) (i : Nat) : String := row.getD i ""

/-- JavaScript string truthiness: every string except `""` is truthy. -/
def truthy (s : String) : Bool := s != ""

/-- `s.toLowerCase()`: per-character lowering (structural recursion over the
character list, so that concrete decoders evaluate inside the kernel). -/
def toLowerStr (s : String) : String := String.mk (s.data.map Char.toLower)

/-- `s.endsWith(t)` on character lists. -/
def endsWithStr (s t : String) : Bool :=
  s.data.drop (s.data.length - t.data.length) == t.data

/-- `s.substring(0, s.length - n)`: drop the last `n` characters. -/
def dropRightStr (s : String) (n : Nat) : String :=
  String.mk (s.data.take (s.data.length - n))

/-- `String.split` on one separator character, on character lists. -/
def splitOnCharList (c : Char) : List Char → List (List Char)
  | [] => [[]]
  | a :: rest =>
    match splitOnCharList c rest with
    | [] => [[a]]
    | g :: gs => if a == c then [] :: g :: gs else (a :: g) :: gs

/-- `s.split(c)` as JavaScript does it: `""` splits to `[""]`, adjacent
separators produce empty fields. -/
def splitOnChar (c : Char) (s : String) : List String :=
  (splitOnCharList c s.data).map String.mk

/-- `parts.join(sep)`. -/
def joinWith (sep : String) : List String → String
  | [] => ""
  | a :: rest => rest.foldl (fun acc x => acc ++ sep ++ x) a

/-- Whitespace skipped by JavaScript numeric parsing. -/
def isJsSpace (c : Char) : Bool := c == ' ' || c == '\t' || c == '\n' || c == '\r'

/-- Numeric value of a run of decimal digit characters. -/
def digitsVal (l : List Char) : Nat := l.foldl (fun a c => a * 10 + (c.toNat - 48)) 0

/-- Model of JavaScript `parseInt` on cell text: skip leading whitespace,
read an optional sign and then the longest prefix of decimal digits,
ignoring anything after it; `none` models NaN (no digits found).  The
hexadecimal `0x` form never appears in sheet cells and is not modelled. -/
def parseIntOpt (s : String) : Option Int :=
  let l := s.data.dropWhile isJsSpace
  let signSplit : Bool × List Char :=
    match l with
    | '-' :: rest => (true, rest)
    | '+' :: rest => (false, rest)
    | _ => (false, l)
  let ds := signSplit.2.takeWhile Char.isDigit
  if ds.isEmpty then none
  else
    let v : Int := Int.ofNat (digitsVal ds)
    some (if signSplit.1 then -v else v)

/-- Exponent suffix of a JavaScript float literal: optional sign and digits;
`0` when the digits are missing (`parseFloat` then ignores the dangling
exponent marker). -/
def readExp (l : List Char) : Int :=
  let signSplit : Bool × List Char :=
    match l with
    | '-' :: rest => (true, rest)
    | '+' :: rest => (false, rest)
    | _ => (false, l)
  let ds := signSplit.2.takeWhile Char.isDigit
  if ds.isEmpty then 0
  else if signSplit.1 then -(Int.ofNat (digitsVal ds)) else Int.ofNat (digitsVal ds)

/-- Model of JavaScript `parseFloat`: skip leading whitespace, read an
optional sign, digits, an optional fraction and an optional exponent, and
ignore any trailing garbage; `none` models NaN (not even one digit).  The
literal `Infinity`, which never appears in sheet cells, is not modelled. -/
def parseFloatOpt (s : String) : Option ℚ :=
  let l := s.data.dropWhile isJsSpace
  let signSplit : Bool × List Char :=
    match l with
    | '-' :: rest => (true, rest)
    | '+' :: rest => (false, rest)
    | _ => (false, l)
  let l2 := signSplit.2
  let intDs := l2.takeWhile Char.isDigit
  let l3 := l2.drop intDs.length
  let fracSplit : List Char × List Char :=
    match l3 with
    | '.' :: rest => (rest.takeWhile Char.isDigit, rest.dropWhile Char.isDigit)
    | _ => ([], l3)
  let fracDs := fracSplit.1
  if intDs.isEmpty && fracDs.isEmpty then none
  else
    let mant : ℚ := (digitsVal intDs : ℚ) + (digitsVal fracDs : ℚ) / ((10 : ℚ) ^ fracDs.length)
    let expVal : Int :=
      match fracSplit.2 with
      | 'e' :: rest => readExp rest
      | 'E' :: rest => readExp rest
      | _ => 0
    let scaled : ℚ :=
      if 0 ≤ expVal then mant * (10 : ℚ) ^ expVal.toNat
      else mant / (10 : ℚ) ^ ((-expVal).toNat)
    some (if signSplit.1 then -scaled else scaled)

/-- `headers.findIndex(h => h.toLowerCase() === target)`, the satellite
column lookup used by every category decoder (the target strings are built
from lowered header text, so they are already lowercase). -/
def satIdx (hs : List String) (target : String) : Option Nat :=
  hs.findIdx? (fun h => toLowerStr h == target)

/-- `capitalizeFirstLetter` (app.js 536-539). -/
def capitalizeFirstLetter (s : String) : String :=
  match s.data with
  | [] => ""
  | c :: cs => String.mk (c.toUpper :: cs)

/-- `capitalizeSubject` (app.js 542-547): split on underscore, capitalize
each word, join with spaces. -/
def capitalizeSubject (s : String) : String :=
  if s = "" then ""
  else joinWith " " ((splitOnChar '_' s).map capitalizeFirstLetter)

/-- Characters of the regex class `[a-z_]` used for group-key stems. -/
def stemChar (c : Char) : Bool := ('a' ≤ c && c ≤ 'z') || c == '_'

/-- Match of a lowered column name against `^([a-z_]+)_<tag>(\d+)$`, the
primary pattern of the activity, assignment, test and correction
categories.  The digit group is the maximal trailing digit run — the stem
class excludes digits, so regex backtracking cannot shift the split — and
the match returns the (stem, digits) captures. -/
def matchGroupNum (tag : String) (s : String) : Option (String × String) :=
  let cs := s.data
  let revDs := cs.reverse.takeWhile Char.isDigit
  if revDs.isEmpty then none
  else
    let num := String.mk revDs.reverse
    let rest := cs.take (cs.length - revDs.length)
    let sep := '_' :: tag.data
    if rest.length < sep.length then none
    else
      let stem := rest.take (rest.length - sep.length)
      if rest.drop (rest.length - sep.length) == sep && !stem.isEmpty && stem.all stemChar
      then some (String.mk stem, num)
      else none

/-! ### Decoded entities -/

/-- SubjectProgress entity (app.js 198-202). -/
structure SubjectProgress where
  subject : String
  progress : ℚ
  grade : String
  deriving DecidableEq

/-- Activity entity (app.js 243-249). -/
structure Activity where
  subject : String
  activity : String
  date : String
  description : String
  status : String
  deriving DecidableEq

/-- Assignment entity (app.js 293-300). -/
structure Assignment where
  subject : String
  name : String
  assignedDate : String
  dueDate : String
  status : String
  remarks : String
  deriving DecidableEq

/-- Test entity (app.js 372-380); `percentage` is a JavaScript number which
can be NaN, embedded as `none`. -/
structure Test where
  subject : String
  name : String
  date : String
  maxMarks : Int
  marksObtained : Int
  percentage : Option ℚ
  grade : String
  deriving DecidableEq

/-- Display projection of a Test used for the dashboard (app.js 129-136). -/
structure TestSummary where
  subject : String
  name : String
  date : String
  marks : String
  percentage : Option ℚ
  grade : String
  deriving DecidableEq

/-- Correction entity (app.js 421-427). -/
structure Correction where
  subject : String
  copyType : String
  date : String
  improvements : String
  remarks : String
  deriving DecidableEq

/-- AttendanceMonth entity (app.js 497-503). -/
structure AttendanceMonth where
  month : String
  workingDays : Int
  present : Int
  absent : Int
  percentage : Option ℚ
  deriving DecidableEq

/-- Student basic info (app.js 97-105); the JavaScript key `class` is a Lean
keyword and is embedded as `className`. -/
structure StudentInfo where
  name : String
  className : String
  admissionNo : String
  rollNo : String
  dob : String
  contact : String
  photoUrl : String
  deriving DecidableEq

/-- Summary statistics record (app.js 158-163). -/
structure Summary where
  totalSubjects : Nat
  completedAssignments : Nat
  pendingAssignments : Nat
  attendancePercentage : String
  deriving DecidableEq

/-- The assembled output document (app.js 149-164). -/
structure StudentDoc where
  studentInfo : StudentInfo
  subjectProgress : List SubjectProgress
  recentTests : List TestSummary
  subjectActivities : List Activity
  assignments : List Assignment
  tests : List Test
  corrections : List Correction
  attendance : List AttendanceMonth
  summary : Summary
  deriving DecidableEq

/-! ### Satellite readers -/

/-- Text satellite: `idx !== -1 ? (studentRow[idx] || dflt) : dflt`. -/
def satText (hs row : List String) (target dflt : String) : String :=
  match satIdx hs target with
  | some j => if truthy (cell row j) then cell row j else dflt
  | none => dflt

/-- Integer satellite: `let v = 0; if (idx !== -1 && studentRow[idx])
{ v = parseInt(studentRow[idx]); if (isNaN(v)) v = 0; }`. -/
def satInt (hs row : List String) (target : String) : Int :=
  match satIdx hs target with
  | some j =>
    if truthy (cell row j) then
      match parseIntOpt (cell row j) with
      | some v => v
      | none => 0
    else 0
  | none => 0

/-- Percentage of a test group (app.js 356-368).  When the percentage cell
is present and truthy but unparsable, the JavaScript variable holds NaN and
is only repaired when `maxMarks > 0`; otherwise NaN (`none`) survives into
the entity. -/
def testPercentage (hs row : List String) (target : String)
    (maxMarks marksObtained : Int) : Option ℚ :=
  match satIdx hs target with
  | some j =>
    if truthy (cell row j) then
      match parseFloatOpt (cell row j) with
      | some v => some v
      | none =>
        if maxMarks > 0 then some ((marksObtained : ℚ) / (maxMarks : ℚ) * 100) else none
    else
      if maxMarks > 0 then some ((marksObtained : ℚ) / (maxMarks : ℚ) * 100) else some 0
  | none =>
    if maxMarks > 0 then some ((marksObtained : ℚ) / (maxMarks : ℚ) * 100) else some 0

/-- Percentage of an attendance month (app.js 482-495), same shape as the
test percentage with working days as denominator and present days as
numerator.  Every caller has already established `workingDays > 0`, so the
NaN branch is dead there, but it is kept to mirror the source. -/
def attendancePercentage (hs row : List String) (target : String)
    (workingDays present : Int) : Option ℚ :=
  match satIdx hs target with
  | some j =>
    if truthy (cell row j) then
      match parseFloatOpt (cell row j) with
      | some v => some v
      | none =>
        if workingDays > 0 then some ((present : ℚ) / (workingDays : ℚ) * 100) else none
    else
      if workingDays > 0 then some ((present : ℚ) / (workingDays : ℚ) * 100) else some 0
  | none =>
    if workingDays > 0 then some ((present : ℚ) / (workingDays : ℚ) * 100) else some 0

/-! ### Category decoders

Each `for (let i = 0; ...)` loop with `continue`/`push` is embedded as the
`filterMap` of its loop body over the column indices, `none` standing for
`continue` and `some` for `push`. -/

/-- Loop body of `processHorizontalSubjects` (app.js 179-204) at column `i`. -/
def stepSubjects (hs row : List String) (i : Nat) : Option SubjectProgress :=
  let header := toLowerStr (hs.getD i "")
  if endsWithStr header "_progress" then
    let subject := dropRightStr header 9
    let progressValue := cell row i
    if truthy progressValue then
      match parseFloatOpt progressValue with
      | some progress =>
        let grade :=
          match satIdx hs (subject ++ "_grade") with
          | some gi => if truthy (cell row gi) then cell row gi else ""
          | none => ""
        some { subject := capitalizeSubject subject, progress := progress, grade := grade }
      | none => none
    else none
  else none

/-- `processHorizontalSubjects` (app.js 172-207); a null student row decodes
to the empty list. -/
def processHorizontalSubjects (hs : List String) (row? : Option (List String)) :
    List SubjectProgress :=
  match row? with
  | none => []
  | some row => (List.range hs.length).filterMap (stepSubjects hs row)

/-- Entity built for a matched activity group (app.js 230-249). -/
def mkActivity (hs row : List String) (i : Nat) (subject num : String) : Activity :=
  let stem := subject ++ "_activity" ++ num
  { subject := capitalizeSubject subject
    activity := cell row i
    date := satText hs row (stem ++ "_date") ""
    description := satText hs row (stem ++ "_description") ""
    status := toLowerStr (satText hs row (stem ++ "_status") "pending") }

/-- Loop body of `processHorizontalActivities` (app.js 218-251). -/
def stepActivities (hs row : List String) (i : Nat) : Option Activity :=
  match matchGroupNum "activity" (toLowerStr (hs.getD i "")) with
  | some (subject, num) =>
    if truthy (cell row i) then some (mkActivity hs row i subject num) else none
  | none => none

/-- `processHorizontalActivities` (app.js 210-254). -/
def processHorizontalActivities (hs : List String) (row? : Option (List String)) :
    List Activity :=
  match row? with
  | none => []
  | some row => (List.range hs.length).filterMap (stepActivities hs row)

/-- Entity built for a matched assignment group (app.js 277-300). -/
def mkAssignment (hs row : List String) (i : Nat) (subject num : String) : Assignment :=
  let stem := subject ++ "_assignment" ++ num
  { subject := capitalizeSubject subject
    name := cell row i
    assignedDate := satText hs row (stem ++ "_assigned_date") ""
    dueDate := satText hs row (stem ++ "_due_date") ""
    status := toLowerStr (satText hs row (stem ++ "_status") "pending")
    remarks := satText hs row (stem ++ "_remarks") "" }

/-- Loop body of `processHorizontalAssignments` (app.js 265-302). -/
def stepAssignments (hs row : List String) (i : Nat) : Option Assignment :=
  match matchGroupNum "assignment" (toLowerStr (hs.getD i "")) with
  | some (subject, num) =>
    if truthy (cell row i) then some (mkAssignment hs row i subject num) else none
  | none => none

/-- `processHorizontalAssignments` (app.js 257-305). -/
def processHorizontalAssignments (hs : List String) (row? : Option (List String)) :
    List Assignment :=
  match row? with
  | none => []
  | some row => (List.range hs.length).filterMap (stepAssignments hs row)

/-- Entity built for a matched test group (app.js 328-380). -/
def mkTest (hs row : List String) (i : Nat) (subject num : String) : Test :=
  let stem := subject ++ "_test" ++ num
  let maxMarks := satInt hs row (stem ++ "_max_marks")
  let marksObtained := satInt hs row (stem ++ "_marks_obtained")
  { subject := capitalizeSubject subject
    name := cell row i
    date := satText hs row (stem ++ "_date") ""
    maxMarks := maxMarks
    marksObtained := marksObtained
    percentage := testPercentage hs row (stem ++ "_percentage") maxMarks marksObtained
    grade := satText hs row (stem ++ "_grade") "" }

/-- Loop body of `processHorizontalTests` (app.js 316-382). -/
def stepTests (hs row : List String) (i : Nat) : Option Test :=
  match matchGroupNum "test" (toLowerStr (hs.getD i "")) with
  | some (subject, num) =>
    if truthy (cell row i) then some (mkTest hs row i subject num) else none
  | none => none

/-- `processHorizontalTests` (app.js 308-385). -/
def processHorizontalTests (hs : List String) (row? : Option (List String)) : List Test :=
  match row? with
  | none => []
  | some row => (List.range hs.length).filterMap (stepTests hs row)

/-- Entity built for a matched correction group (app.js 408-427). -/
def mkCorrection (hs row : List String) (i : Nat) (subject num : String) : Correction :=
  let stem := subject ++ "_correction" ++ num
  { subject := capitalizeSubject subject
    copyType := cell row i
    date := satText hs row (stem ++ "_date") ""
    improvements := satText hs row (stem ++ "_improvements") ""
    remarks := satText hs row (stem ++ "_remarks") "" }

/-- Loop body of `processHorizontalCorrections` (app.js 396-429). -/
def stepCorrections (hs row : List String) (i : Nat) : Option Correction :=
  match matchGroupNum "correction" (toLowerStr (hs.getD i "")) with
  | some (subject, num) =>
    if truthy (cell row i) then some (mkCorrection hs row i subject num) else none
  | none => none

/-- `processHorizontalCorrections` (app.js 388-432). -/
def processHorizontalCorrections (hs : List String) (row? : Option (List String)) :
    List Correction :=
  match row? with
  | none => []
  | some row => (List.range hs.length).filterMap (stepCorrections hs row)

/-- Entity built for a materialized attendance month (app.js 459-503). -/
def mkMonth (hs row : List String) (month : String) (workingDays : Int) : AttendanceMonth :=
  let present := satInt hs row (month ++ "_present")
  let absent := satInt hs row (month ++ "_absent")
  { month := capitalizeFirstLetter month
    workingDays := workingDays
    present := present
    absent := absent
    percentage := attendancePercentage hs row (month ++ "_percent") workingDays present }

/-- Loop body of `processHorizontalAttendance` (app.js 443-505): the month
is gated on a truthy working-days cell whose parse (NaN defaulted to 0) is
strictly positive. -/
def stepAttendance (hs row : List String) (i : Nat) : Option AttendanceMonth :=
  let header := toLowerStr (hs.getD i "")
  if endsWithStr header "_working" && truthy (cell row i) then
    let month := dropRightStr header 8
    let workingDays : Int :=
      match parseIntOpt (cell row i) with
      | some v => v
      | none => 0
    if workingDays ≤ 0 then none
    else some (mkMonth hs row month workingDays)
  else none

/-- `processHorizontalAttendance` (app.js 435-508). -/
def processHorizontalAttendance (hs : List String) (row? : Option (List String)) :
    List AttendanceMonth :=
  match row? with
  | none => []
  | some row => (List.range hs.length).filterMap (stepAttendance hs row)

/-! ### Row locator -/

/-- The row locator contract of the spec (§4.1), with the key column name a
parameter: resolve the key column case-insensitively, then return the first
data row (rows after row 0) whose cell at that column is exactly the key
value.  `row.get? idx == some keyValue` mirrors the JavaScript strict
equality `values[i][admissionIndex] === admissionNo`, which is false when
the row is too short (`undefined`). -/
def locate (values : List (List String)) (headers : List String)
    (keyColumnName keyValue : String) : Option (List String) :=
  if values.length < 2 then none
  else
    match headers.findIdx? (fun h => toLowerStr h == toLowerStr keyColumnName) with
    | none => none
    | some idx => (values.drop 1).find? (fun r => r.get? idx == some keyValue)

/-- `findStudentByAdmissionNo` (app.js 511-525): the source instantiates the
locator contract with the literal key column `admission_no`. -/
def findStudentByAdmissionNo (values : List (List String)) (headers : List String)
    (admissionNo : String) : Option (List String) :=
  if values.length < 2 then none
  else
    match headers.findIdx? (fun h => toLowerStr h == "admission_no") with
    | none => none
    | some idx => (values.drop 1).find? (fun r => r.get? idx == some admissionNo)

/-- `getValueByHeader` (app.js 528-533). -/
def getValueByHeader (row headers : List String) (headerName : String) : String :=
  match headers.findIdx? (fun h => toLowerStr h == toLowerStr headerName) with
  | some i => if i < row.length then cell row i else ""
  | none => ""

/-! ### Recent-tests selection -/

/-- Numeric coercion of one dash-separated date part as used by the sort
comparator (app.js 124-127).  On the all-digit parts of a well-formed
dd-mm-yyyy string this is the JavaScript `Number` coercion; ill-formed parts
are out of scope of the claims and are given key 0. -/
def numPart (s : String) : Int :=
  if s ≠ "" ∧ s.data.all Char.isDigit then Int.ofNat (digitsVal s.data) else 0

/-- Day number of the proleptic Gregorian date `(y, m, d)` counted from
1970-01-01, with the same day-overflow normalization that ECMA-262 MakeDay
performs: the count is first-of-month plus `d - 1`, so a `d` past the end
of the month slides into the following month exactly as
`new Date(y, m - 1, d)` does — for example (2024, 4, 31) and (2024, 5, 1)
get the same number.  Standard civil-calendar day arithmetic (eras of 400
years); every division floors. -/
def daysFromCivil (y m d : Int) : Int :=
  let yAdj := if m ≤ 2 then y - 1 else y
  let mp := if 2 < m then m - 3 else m + 9
  let era := Int.fdiv yAdj 400
  let yoe := yAdj - era * 400
  let doy := Int.fdiv (153 * mp + 2) 5 + d - 1
  let doe := yoe * 365 + Int.fdiv yoe 4 - Int.fdiv yoe 100 + doy
  era * 146097 + doe - 719468

/-- Sort key of a test's date: the normalized day number of the value the
comparator builds with `new Date(parts[2], parts[1] - 1, parts[0])`
(app.js 124-127; `parts[1] - 1` is the zero-based month index of month
`parts[1]`).  Date values sit at local midnight, so their millisecond order
is exactly the order of this day number — including ties created by the
normalization of overflow days such as 31-04. -/
def dateKey (t : Test) : Int :=
  let parts := splitOnChar '-' t.date
  daysFromCivil (numPart (parts.getD 2 "")) (numPart (parts.getD 1 ""))
    (numPart (parts.getD 0 ""))

/-- `testLe a b` holds when `a` may precede `b` in the sorted output: the
comparator `dateB - dateA` (app.js 122-128) is nonpositive exactly when b's
date is at most a's. -/
def testLe (a b : Test) : Prop := dateKey b ≤ dateKey a

instance : DecidableRel testLe := fun a b => by unfold testLe; exact inferInstance

/-- A well-formed dd-mm-yyyy date cell: two-digit day and month, four-digit
year, day in 1..31, month in 1..12 and the year at least 1000.  The digit
parts make `numPart` agree with the JavaScript `Number` coercion the Date
constructor applies, the year bound keeps the constructor's two-digit-year
rewriting away, and the month bound means no month carry — day overflow
(such as 31-04) is still admitted and is normalized identically by the
source's Date and the embedding's `daysFromCivil`. -/
def validDMY (s : String) : Bool :=
  match splitOnChar '-' s with
  | [d, m, y] =>
    d.length == 2 && m.length == 2 && y.length == 4 &&
    d.data.all Char.isDigit && m.data.all Char.isDigit && y.data.all Char.isDigit &&
    decide (1 ≤ digitsVal d.data) && decide (digitsVal d.data ≤ 31) &&
    decide (1 ≤ digitsVal m.data) && decide (digitsVal m.data ≤ 12) &&
    decide (1000 ≤ digitsVal y.data)
  | _ => false

/-- Dashboard projection of one selected test (app.js 129-136). -/
def projectTest (t : Test) : TestSummary :=
  { subject := t.subject
    name := t.name
    date := t.date
    marks := toString t.marksObtained ++ "/" ++ toString t.maxMarks
    percentage := t.percentage
    grade := t.grade }

/-- Recent-tests selection (app.js 121-136): the spread copy of the decoded
tests is sorted date-descending with the stable `Array.prototype.sort`
(embedded as insertion sort, which computes the same, unique, stable order
for this total comparator), truncated to 5 and projected for display. -/
def selectRecent (tests : List Test) : List TestSummary :=
  ((List.insertionSort testLe tests).take 5).map projectTest

/-! ### Summary statistics -/

/-- JavaScript addition on numbers that may be NaN. -/
def jsAdd (a b : Option ℚ) : Option ℚ :=
  match a, b with
  | some x, some y => some (x + y)
  | _, _ => none

/-- JavaScript division of a summed percentage by a month count; division by
zero only happens at the unguarded legacy call site with an empty sum, where
0/0 is NaN. -/
def jsDiv (a : Option ℚ) (n : Nat) : Option ℚ :=
  match a with
  | some x => if n = 0 then none else some (x / (n : ℚ))
  | none => none

/-- `x.toFixed(1)` for a nonnegative rational: the digits of the integer
nearest to `10 * x` (ties toward the larger integer, per ECMA-262), with a
decimal point before the last digit. -/
def toFixed1Pos (x : ℚ) : String :=
  let y := x * 10 + 1 / 2
  let n := (Int.fdiv y.num (y.den : Int)).toNat
  toString (n / 10) ++ "." ++ toString (n % 10)

/-- `x.toFixed(1)`: a negative number formats as the sign followed by the
format of its magnitude. -/
def toFixed1 (x : ℚ) : String :=
  if x < 0 then "-" ++ toFixed1Pos (-x) else toFixed1Pos x

/-- `toFixed` on a JavaScript number that may be NaN. -/
def jsToFixed1 : Option ℚ → String
  | none => "NaN"
  | some x => toFixed1 x

/-- Summary statistics of the horizontal pipeline (app.js 141-163): status
buckets by exact lowercase match, and the attendance mean guarded to 0 for
an empty month list. -/
def summarize (assignments : List Assignment) (attendance : List AttendanceMonth)
    (subjectProgress : List SubjectProgress) : Summary :=
  let completedAssignments := (assignments.filter (fun a => a.status == "complete")).length
  let pendingAssignments := (assignments.filter (fun a => a.status == "pending")).length
  let overallAttendance : Option ℚ :=
    if attendance.length > 0 then
      jsDiv (attendance.foldl (fun s m => jsAdd s m.percentage) (some 0)) attendance.length
    else some 0
  { totalSubjects := subjectProgress.length
    completedAssignments := completedAssignments
    pendingAssignments := pendingAssignments
    attendancePercentage := jsToFixed1 overallAttendance ++ "%" }

/-- Summary statistics of the legacy variant (src/unnamed/part_000 228-248):
the same buckets, but the attendance mean divides by the month count with no
zero-month guard, so an empty month list is the JavaScript 0/0 = NaN and
the rendered text is "NaN%". -/
def summarizeLegacy (assignments : List Assignment) (attendance : List AttendanceMonth)
    (subjectProgress : List SubjectProgress) : Summary :=
  let completedAssignments := (assignments.filter (fun a => a.status == "complete")).length
  let pendingAssignments := (assignments.filter (fun a => a.status == "pending")).length
  let overallAttendance : Option ℚ :=
    jsDiv (attendance.foldl (fun s m => jsAdd s m.percentage) (some 0)) attendance.length
  { totalSubjects := subjectProgress.length
    completedAssignments := completedAssignments
    pendingAssignments := pendingAssignments
    attendancePercentage := jsToFixed1 overallAttendance ++ "%" }

/-! ### Full pipeline -/

/-- The seven value ranges handed to `processStudentData` (app.js 76-78),
each a sheet given as its list of rows (row 0 is the header row). -/
structure SheetsData where
  students : List (List String)
  subjects : List (List String)
  activities : List (List String)
  assignments : List (List String)
  tests : List (List String)
  corrections : List (List String)
  attendance : List (List String)

/-- `processStudentData` (app.js 73-169).  The `throw new Error(...)` for a
missing student is the `Except.error` branch; every other path is total. -/
def processStudentData (d : SheetsData) (admissionNumber : String) :
    Except String StudentDoc :=
  let studentsHeaders := d.students.headD []
  let subjectsHeaders := d.subjects.headD []
  let activitiesHeaders := d.activities.headD []
  let assignmentsHeaders := d.assignments.headD []
  let testsHeaders := d.tests.headD []
  let correctionsHeaders := d.corrections.headD []
  let attendanceHeaders := d.attendance.headD []
  match findStudentByAdmissionNo d.students studentsHeaders admissionNumber with
  | none =>
    Except.error ("Student with admission number " ++ admissionNumber ++ " not found")
  | some studentData =>
    let studentInfo : StudentInfo :=
      { name := getValueByHeader studentData studentsHeaders "name"
        className := getValueByHeader studentData studentsHeaders "class"
        admissionNo := getValueByHeader studentData studentsHeaders "admission_no"
        rollNo := getValueByHeader studentData studentsHeaders "roll_no"
        dob := getValueByHeader studentData studentsHeaders "dob"
        contact := getValueByHeader studentData studentsHeaders "contact"
        photoUrl :=
          let u := getValueByHeader studentData studentsHeaders "photo_url"
          if truthy u then u else "/api/placeholder/120/120" }
    let subjectRow := findStudentByAdmissionNo d.subjects subjectsHeaders admissionNumber
    let activitiesRow := findStudentByAdmissionNo d.activities activitiesHeaders admissionNumber
    let assignmentsRow := findStudentByAdmissionNo d.assignments assignmentsHeaders admissionNumber
    let testsRow := findStudentByAdmissionNo d.tests testsHeaders admissionNumber
    let correctionsRow := findStudentByAdmissionNo d.corrections correctionsHeaders admissionNumber
    let attendanceRow := findStudentByAdmissionNo d.attendance attendanceHeaders admissionNumber
    let subjectProgress := processHorizontalSubjects subjectsHeaders subjectRow
    let subjectActivities := processHorizontalActivities activitiesHeaders activitiesRow
    let assignments := processHorizontalAssignments assignmentsHeaders assignmentsRow
    let tests := processHorizontalTests testsHeaders testsRow
    let recentTests := selectRecent tests
    let corrections := processHorizontalCorrections correctionsHeaders correctionsRow
    let attendance := processHorizontalAttendance attendanceHeaders attendanceRow
    Except.ok
      { studentInfo := studentInfo
        subjectProgress := subjectProgress
        recentTests := recentTests
        subjectActivities := subjectActivities
        assignments := assignments
        tests := tests
        corrections := corrections
        attendance := attendance
        summary := summarize assignments attendance subjectProgress }

/-! ### Claim-side emission criteria and entity builders

The claims describe each decoder loop as: filter the header columns by a
qualification criterion, then build one entity per qualifying column, in
header order.  The criteria and builders below are stated from the claims;
the theorems that follow prove the loop bodies equal to them. -/

/-- Column `i` qualifies as a subject-progress primary in the source: the
lowered header ends in `_progress`, the cell is non-empty and the cell
parses as a number (app.js 182-190). -/
def qSubjects (hs row : List String) (i : Nat) : Bool :=
  (endsWithStr (toLowerStr (hs.getD i "")) "_progress") && truthy (cell row i) &&
    (parseFloatOpt (cell row i)).isSome

/-- The subject-progress emission criterion exactly as claim C1 states it:
primary pattern matched and primary cell non-empty, with no condition on
the cell parsing as a number. -/
def qSubjectsStated (hs row : List String) (i : Nat) : Bool :=
  (endsWithStr (toLowerStr (hs.getD i "")) "_progress") && truthy (cell row i)

/-- Entity emitted for a qualifying subject-progress column. -/
def eSubjects (hs row : List String) (i : Nat) : SubjectProgress :=
  let subject := dropRightStr (toLowerStr (hs.getD i "")) 9
  { subject := capitalizeSubject subject
    progress := (parseFloatOpt (cell row i)).getD 0
    grade :=
      match satIdx hs (subject ++ "_grade") with
      | some gi => if truthy (cell row gi) then cell row gi else ""
      | none => "" }

/-- Column `i` qualifies as a primary of one of the four ordinal categories
(tag `activity`, `assignment`, `test` or `correction`): the lowered header
matches the pattern and the cell is non-empty. -/
def qTagged (tag : String) (hs row : List String) (i : Nat) : Bool :=
  (matchGroupNum tag (toLowerStr (hs.getD i ""))).isSome && truthy (cell row i)

/-- Entity emitted for a qualifying activity column. -/
def eActivities (hs row : List String) (i : Nat) : Activity :=
  match matchGroupNum "activity" (toLowerStr (hs.getD i "")) with
  | some (subject, num) => mkActivity hs row i subject num
  | none => mkActivity hs row i "" ""

/-- Entity emitted for a qualifying assignment column. -/
def eAssignments (hs row : List String) (i : Nat) : Assignment :=
  match matchGroupNum "assignment" (toLowerStr (hs.getD i "")) with
  | some (subject, num) => mkAssignment hs row i subject num
  | none => mkAssignment hs row i "" ""

/-- Entity emitted for a qualifying test column. -/
def eTests (hs row : List String) (i : Nat) : Test :=
  match matchGroupNum "test" (toLowerStr (hs.getD i "")) with
  | some (subject, num) => mkTest hs row i subject num
  | none => mkTest hs row i "" ""

/-- Entity emitted for a qualifying correction column. -/
def eCorrections (hs row : List String) (i : Nat) : Correction :=
  match matchGroupNum "correction" (toLowerStr (hs.getD i "")) with
  | some (subject, num) => mkCorrection hs row i subject num
  | none => mkCorrection hs row i "" ""

/-- Column `i` qualifies as an attendance month: the lowered header ends in
`_working` and the cell parses to a strictly positive integer (exactly the
claimed gating; the source's separate truthiness test is implied because a
successfully parsed cell is non-empty). -/
def qAttendance (hs row : List String) (i : Nat) : Bool :=
  (endsWithStr (toLowerStr (hs.getD i "")) "_working") &&
    (match parseIntOpt (cell row i) with
     | some k => decide (0 < k)
     | none => false)

/-- Entity emitted for a qualifying attendance column. -/
def eAttendance (hs row : List String) (i : Nat) : AttendanceMonth :=
  mkMonth hs row (dropRightStr (toLowerStr (hs.getD i "")) 8) ((parseIntOpt (cell row i)).getD 0)

/-- Raw group key captured from an ordinal-category column name. -/
def rawStem (tag : String) (hs : List String) (i : Nat) : String :=
  ((matchGroupNum tag (toLowerStr (hs.getD i ""))).map Prod.fst).getD ""

instance : IsTotal Test testLe :=
  ⟨fun a b => by unfold testLe; omega⟩

instance : IsTrans Test testLe :=
  ⟨fun a b c hab hbc => by
    unfold testLe at hab hbc ⊢; omega⟩

/-! ### Shared helper lemmas -/

theorem filterMap_eq_filter_map {α β : Type} (step : α → Option β) (q : α → Bool) (e : α → β)
    (h : ∀ i, step i = if q i then some (e i) else none) (l : List α) :
    l.filterMap step = (l.filter q).map e := by
  induction l with
  | nil => rfl
  | cons a t ih =>
    rw [List.filterMap_cons, List.filter_cons, h a]
    by_cases hq : q a
    · simp [hq, ih]
    · simp [hq, ih]

theorem stepSubjects_eq (hs row : List String) (i : Nat) :
    stepSubjects hs row i = if qSubjects hs row i then some (eSubjects hs row i) else none := by
  unfold stepSubjects qSubjects eSubjects
  by_cases he : endsWithStr (toLowerStr (hs.getD i "")) "_progress"
  · by_cases ht : truthy (cell row i)
    · cases hp : parseFloatOpt (cell row i) <;> simp [he, ht, hp]
    · simp [he, ht]
  · have ha : endsWithStr (toLowerStr (hs.getD i "")) "_progress" = false := by
      cases hval : endsWithStr (toLowerStr (hs.getD i "")) "_progress"
      · rfl
      · exact absurd hval he
    have hb : endsWithStr (toLowerStr (hs[i]?.getD "")) "_progress" = false := by
      rw [← List.getD_eq_getElem?_getD]; exact ha
    simp [hb]

theorem stepActivities_eq (hs row : List String) (i : Nat) :
    stepActivities hs row i =
      if qTagged "activity" hs row i then some (eActivities hs row i) else none := by
  unfold stepActivities qTagged eActivities
  cases hm : matchGroupNum "activity" (toLowerStr (hs.getD i "")) with
  | none => simp
  | some pr =>
    obtain ⟨subject, num⟩ := pr
    by_cases ht : truthy (cell row i) <;> simp [ht]

theorem stepAssignments_eq (hs row : List String) (i : Nat) :
    stepAssignments hs row i =
      if qTagged "assignment" hs row i then some (eAssignments hs row i) else none := by
  unfold stepAssignments qTagged eAssignments
  cases hm : matchGroupNum "assignment" (toLowerStr (hs.getD i "")) with
  | none => simp
  | some pr =>
    obtain ⟨subject, num⟩ := pr
    by_cases ht : truthy (cell row i) <;> simp [ht]

theorem stepTests_eq (hs row : List String) (i : Nat) :
    stepTests hs row i = if qTagged "test" hs row i then some (eTests hs row i) else none := by
  unfold stepTests qTagged eTests
  cases hm : matchGroupNum "test" (toLowerStr (hs.getD i "")) with
  | none => simp
  | some pr =>
    obtain ⟨subject, num⟩ := pr
    by_cases ht : truthy (cell row i) <;> simp [ht]

theorem stepCorrections_eq (hs row : List String) (i : Nat) :
    stepCorrections hs row i =
      if qTagged "correction" hs row i then some (eCorrections hs row i) else none := by
  unfold stepCorrections qTagged eCorrections
  cases hm : matchGroupNum "correction" (toLowerStr (hs.getD i "")) with
  | none => simp
  | some pr =>
    obtain ⟨subject, num⟩ := pr
    by_cases ht : truthy (cell row i) <;> simp [ht]

theorem stepAttendance_eq (hs row : List String) (i : Nat) :
    stepAttendance hs row i =
      if qAttendance hs row i then some (eAttendance hs row i) else none := by
  unfold stepAttendance qAttendance eAttendance
  by_cases he : endsWithStr (toLowerStr (hs.getD i "")) "_working"
  · by_cases ht : truthy (cell row i)
    · cases hp : parseIntOpt (cell row i) with
      | none => simp [he, ht, hp]
      | some k =>
        by_cases hk : k ≤ 0
        · have hnk : ¬ (0 < k) := by omega
          simp [he, ht, hp, hk, hnk]
        · have hpk : 0 < k := by omega
          simp [he, ht, hp, hk, hpk]
    · have hc : cell row i = "" := by
        unfold truthy at ht
        simpa using ht
      have hnone : parseIntOpt "" = none := by decide
      simp [he, ht, hc, hnone]
  · have ha : endsWithStr (toLowerStr (hs.getD i "")) "_working" = false := by
      cases hval : endsWithStr (toLowerStr (hs.getD i "")) "_working"
      · rfl
      · exact absurd hval he
    have hb : endsWithStr (toLowerStr (hs[i]?.getD "")) "_working" = false := by
      rw [← List.getD_eq_getElem?_getD]; exact ha
    simp [hb]

theorem subjects_eq (hs row : List String) :
    processHorizontalSubjects hs (some row) =
      ((List.range hs.length).filter (qSubjects hs row)).map (eSubjects hs row) :=
  filterMap_eq_filter_map _ _ _ (stepSubjects_eq hs row) _

theorem activities_eq (hs row : List String) :
    processHorizontalActivities hs (some row) =
      ((List.range hs.length).filter (qTagged "activity" hs row)).map (eActivities hs row) :=
  filterMap_eq_filter_map _ _ _ (stepActivities_eq hs row) _

theorem assignments_eq (hs row : List String) :
    processHorizontalAssignments hs (some row) =
      ((List.range hs.length).filter (qTagged "assignment" hs row)).map (eAssignments hs row) :=
  filterMap_eq_filter_map _ _ _ (stepAssignments_eq hs row) _

theorem tests_eq (hs row : List String) :
    processHorizontalTests hs (some row) =
      ((List.range hs.length).filter (qTagged "test" hs row)).map (eTests hs row) :=
  filterMap_eq_filter_map _ _ _ (stepTests_eq hs row) _

theorem corrections_eq (hs row : List String) :
    processHorizontalCorrections hs (some row) =
      ((List.range hs.length).filter (qTagged "correction" hs row)).map (eCorrections hs row) :=
  filterMap_eq_filter_map _ _ _ (stepCorrections_eq hs row) _

theorem attendance_eq (hs row : List String) :
    processHorizontalAttendance hs (some row) =
      ((List.range hs.length).filter (qAttendance hs row)).map (eAttendance hs row) :=
  filterMap_eq_filter_map _ _ _ (stepAttendance_eq hs row) _

/-- Inserting `x` commutes with filtering by a predicate whose holders are
mutually related by `r` (the tie class of a sort key): `x` lands before
every tied element already present. -/
theorem filter_orderedInsert {α : Type} (r : α → α → Prop) [DecidableRel r] (p : α → Bool)
    (hp : ∀ a b, p a = true → p b = true → r a b) (x : α) (l : List α) :
    (l.orderedInsert r x).filter p =
      if p x then x :: l.filter p else l.filter p := by
  induction l with
  | nil => by_cases hx : p x <;> simp [List.orderedInsert, hx]
  | cons b t ih =>
    rw [List.orderedInsert]
    by_cases hr : r x b
    · rw [if_pos hr]
      by_cases hx : p x <;> simp [List.filter_cons, hx]
    · rw [if_neg hr]
      rw [List.filter_cons]
      by_cases hb : p b
      · have hx : ¬ p x = true := fun hxx => hr (hp x b hxx hb)
        simp [hb, hx, ih, List.filter_cons]
      · simp [hb, ih, List.filter_cons]

/-- Stability of the embedded sort: within each tie class the sorted list
keeps the original order. -/
theorem filter_insertionSort {α : Type} (r : α → α → Prop) [DecidableRel r] (p : α → Bool)
    (hp : ∀ a b, p a = true → p b = true → r a b) (l : List α) :
    (List.insertionSort r l).filter p = l.filter p := by
  induction l with
  | nil => rfl
  | cons a t ih =>
    rw [List.insertionSort, filter_orderedInsert r p hp, List.filter_cons]
    by_cases ha : p a <;> simp [ha, ih]

/-- The NaN-aware percentage sum is an ordinary rational sum as long as no
month percentage is NaN. -/
theorem foldl_jsAdd (att : List AttendanceMonth)
    (h : ∀ m ∈ att, (m.percentage).isSome = true) (q0 : ℚ) :
    att.foldl (fun s m => jsAdd s m.percentage) (some q0) =
      some (q0 + (att.map (fun m => (m.percentage).getD 0)).sum) := by
  induction att generalizing q0 with
  | nil => simp
  | cons m t ih =>
    obtain ⟨v, hv⟩ := Option.isSome_iff_exists.mp (h m (List.mem_cons_self m t))
    rw [List.foldl_cons]
    have hstep : jsAdd (some q0) m.percentage = some (q0 + v) := by rw [hv]; rfl
    rw [hstep, ih (fun x hx => h x (List.mem_cons_of_mem m hx))]
    simp [hv, add_assoc]

/-- Two disjoint status buckets and the rest partition any assignment
list. -/
theorem countP_partition {α : Type} (p q : α → Bool) (hdisj : ∀ a, p a = true → q a = false)
    (l : List α) :
    l.countP p + l.countP q + l.countP (fun a => !p a && !q a) = l.length := by
  induction l with
  | nil => rfl
  | cons a t ih =>
    rw [List.countP_cons, List.countP_cons, List.countP_cons]
    by_cases hp : p a
    · have hq := hdisj a hp
      simp only [hp, hq, List.length_cons]
      simp
      omega
    · by_cases hq : q a
      · simp only [List.length_cons]
        simp [hp, hq]
        omega
      · simp only [List.length_cons]
        simp [hp, hq]
        omega

/-- Every `toFixed(1)` rendering ends in a decimal point followed by exactly
one digit. -/
theorem toFixed1_shape (x : ℚ) :
    ∃ pre d, d < 10 ∧ toFixed1 x = pre ++ "." ++ toString d := by
  unfold toFixed1 toFixed1Pos
  by_cases hx : x < 0
  · rw [if_pos hx]
    refine ⟨"-" ++ toString ((Int.fdiv (-x * 10 + 1 / 2).num ((-x * 10 + 1 / 2).den : Int)).toNat / 10),
      (Int.fdiv (-x * 10 + 1 / 2).num ((-x * 10 + 1 / 2).den : Int)).toNat % 10,
      Nat.mod_lt _ (by omega), ?_⟩
    simp [String.append_assoc]
  · rw [if_neg hx]
    exact ⟨toString ((Int.fdiv (x * 10 + 1 / 2).num ((x * 10 + 1 / 2).den : Int)).toNat / 10),
      (Int.fdiv (x * 10 + 1 / 2).num ((x * 10 + 1 / 2).den : Int)).toNat % 10,
      Nat.mod_lt _ (by omega), rfl⟩

/-! ### Rendering helper lemmas -/

theorem tests_subject_rendering (hs row : List String) :
    (processHorizontalTests hs (some row)).map Test.subject =
      ((List.range hs.length).filter (qTagged "test" hs row)).map
        (fun i => capitalizeSubject (rawStem "test" hs i)) := by
  rw [tests_eq, List.map_map]
  refine List.map_congr_left ?_
  intro i hi
  have hq := (List.mem_filter.mp hi).2
  unfold qTagged at hq
  rw [Bool.and_eq_true] at hq
  obtain ⟨pr, hpr⟩ := Option.isSome_iff_exists.mp hq.1
  obtain ⟨s, n⟩ := pr
  have hpr2 : matchGroupNum "test" (toLowerStr (hs[i]?.getD "")) = some (s, n) := by
    rw [← List.getD_eq_getElem?_getD]; exact hpr
  simp [Function.comp, eTests, rawStem, hpr, hpr2, mkTest]

theorem activities_subject_rendering (hs row : List String) :
    (processHorizontalActivities hs (some row)).map Activity.subject =
      ((List.range hs.length).filter (qTagged "activity" hs row)).map
        (fun i => capitalizeSubject (rawStem "activity" hs i)) := by
  rw [activities_eq, List.map_map]
  refine List.map_congr_left ?_
  intro i hi
  have hq := (List.mem_filter.mp hi).2
  unfold qTagged at hq
  rw [Bool.and_eq_true] at hq
  obtain ⟨pr, hpr⟩ := Option.isSome_iff_exists.mp hq.1
  obtain ⟨s, n⟩ := pr
  have hpr2 : matchGroupNum "activity" (toLowerStr (hs[i]?.getD "")) = some (s, n) := by
    rw [← List.getD_eq_getElem?_getD]; exact hpr
  simp [Function.comp, eActivities, rawStem, hpr, hpr2, mkActivity]

theorem assignments_subject_rendering (hs row : List String) :
    (processHorizontalAssignments hs (some row)).map Assignment.subject =
      ((List.range hs.length).filter (qTagged "assignment" hs row)).map
        (fun i => capitalizeSubject (rawStem "assignment" hs i)) := by
  rw [assignments_eq, List.map_map]
  refine List.map_congr_left ?_
  intro i hi
  have hq := (List.mem_filter.mp hi).2
  unfold qTagged at hq
  rw [Bool.and_eq_true] at hq
  obtain ⟨pr, hpr⟩ := Option.isSome_iff_exists.mp hq.1
  obtain ⟨s, n⟩ := pr
  have hpr2 : matchGroupNum "assignment" (toLowerStr (hs[i]?.getD "")) = some (s, n) := by
    rw [← List.getD_eq_getElem?_getD]; exact hpr
  simp [Function.comp, eAssignments, rawStem, hpr, hpr2, mkAssignment]

theorem corrections_subject_rendering (hs row : List String) :
    (processHorizontalCorrections hs (some row)).map Correction.subject =
      ((List.range hs.length).filter (qTagged "correction" hs row)).map
        (fun i => capitalizeSubject (rawStem "correction" hs i)) := by
  rw [corrections_eq, List.map_map]
  refine List.map_congr_left ?_
  intro i hi
  have hq := (List.mem_filter.mp hi).2
  unfold qTagged at hq
  rw [Bool.and_eq_true] at hq
  obtain ⟨pr, hpr⟩ := Option.isSome_iff_exists.mp hq.1
  obtain ⟨s, n⟩ := pr
  have hpr2 : matchGroupNum "correction" (toLowerStr (hs[i]?.getD "")) = some (s, n) := by
    rw [← List.getD_eq_getElem?_getD]; exact hpr
  simp [Function.comp, eCorrections, rawStem, hpr, hpr2, mkCorrection]

theorem subjects_subject_rendering (hs row : List String) :
    (processHorizontalSubjects hs (some row)).map SubjectProgress.subject =
      ((List.range hs.length).filter (qSubjects hs row)).map
        (fun i => capitalizeSubject (dropRightStr (toLowerStr (hs.getD i "")) 9)) := by
  rw [subjects_eq, List.map_map]
  refine List.map_congr_left ?_
  intro i hi
  simp [Function.comp, eSubjects]

theorem attendance_month_rendering (hs row : List String) :
    (processHorizontalAttendance hs (some row)).map AttendanceMonth.month =
      ((List.range hs.length).filter (qAttendance hs row)).map
        (fun i => capitalizeFirstLetter (dropRightStr (toLowerStr (hs.getD i "")) 8)) := by
  rw [attendance_eq, List.map_map]
  refine List.map_congr_left ?_
  intro i hi
  simp [Function.comp, eAttendance, mkMonth]

/-! ### Claim C1 -/

/-- Claim C1 counterexample: the column `math_progress` matches the
subject-progress primary pattern and its cell `"abc"` is non-empty, so the
claim demands exactly one emitted entity for it, yet the decoder emits none
— the source additionally skips a primary cell that does not parse as a
number. -/
theorem C1_counterexample :
    (processHorizontalSubjects ["math_progress"] (some ["abc"])).length ≠
      ((List.range 1).filter (qSubjectsStated ["math_progress"] ["abc"])).length := by
  decide

/-- Claim C1 (amended): for every header row and data row, each non-attendance
category decoder emits exactly one entity per header column whose lowered
name matches the category's primary pattern and whose primary cell is
non-empty — with the amendment that subject-progress additionally requires
the primary cell to parse as a number — no entity for any other column, and
the entities appear in the order of their primary columns in the header. -/
theorem C1_decoder_emission (hs row : List String) :
    processHorizontalSubjects hs (some row) =
        ((List.range hs.length).filter (qSubjects hs row)).map (eSubjects hs row) ∧
    processHorizontalActivities hs (some row) =
        ((List.range hs.length).filter (qTagged "activity" hs row)).map (eActivities hs row) ∧
    processHorizontalAssignments hs (some row) =
        ((List.range hs.length).filter (qTagged "assignment" hs row)).map (eAssignments hs row) ∧
    processHorizontalTests hs (some row) =
        ((List.range hs.length).filter (qTagged "test" hs row)).map (eTests hs row) ∧
    processHorizontalCorrections hs (some row) =
        ((List.range hs.length).filter (qTagged "correction" hs row)).map (eCorrections hs row) :=
  ⟨subjects_eq hs row, activities_eq hs row, assignments_eq hs row, tests_eq hs row,
    corrections_eq hs row⟩

/-! ### Claim C5 -/

/-- Claim C5: an attendance month is materialized exactly for the columns
whose lowered name ends in `_working` and whose cell parses to a strictly
positive integer — an empty, unparsable, zero or negative working-days cell
yields no entity — and in particular working days `"0"` yields no
entity. -/
theorem C5_attendance_gating (hs row : List String) :
    processHorizontalAttendance hs (some row) =
        ((List.range hs.length).filter (qAttendance hs row)).map (eAttendance hs row) ∧
    processHorizontalAttendance ["admission_no", "april_working"] (some ["10234", "0"]) = [] :=
  ⟨attendance_eq hs row, by decide⟩

/-! ### Claim C9 -/

/-- Claim C9 counterexample: the month key `winter_break` is rendered by the
decoder as `Winter_break` (only the first letter capitalized), not as the
capitalized-per-word `Winter Break` that the claim asserts for every
category. -/
theorem C9_counterexample :
    (processHorizontalAttendance ["winter_break_working"] (some ["20"])).map
        AttendanceMonth.month ≠ [capitalizeSubject "winter_break"] := by
  decide

/-- Claim C9 (amended): the group key of every subject-keyed category is
rendered capitalized-per-word (split on underscores, e.g. `social_science`
renders as `Social Science`), but the month key of AttendanceMonth entities
is rendered by `capitalizeFirstLetter`, which capitalizes only the first
letter and keeps underscores. -/
theorem C9_display_rendering (hs row : List String) :
    (processHorizontalSubjects hs (some row)).map SubjectProgress.subject =
        ((List.range hs.length).filter (qSubjects hs row)).map
          (fun i => capitalizeSubject (dropRightStr (toLowerStr (hs.getD i "")) 9)) ∧
    (processHorizontalActivities hs (some row)).map Activity.subject =
        ((List.range hs.length).filter (qTagged "activity" hs row)).map
          (fun i => capitalizeSubject (rawStem "activity" hs i)) ∧
    (processHorizontalAssignments hs (some row)).map Assignment.subject =
        ((List.range hs.length).filter (qTagged "assignment" hs row)).map
          (fun i => capitalizeSubject (rawStem "assignment" hs i)) ∧
    (processHorizontalTests hs (some row)).map Test.subject =
        ((List.range hs.length).filter (qTagged "test" hs row)).map
          (fun i => capitalizeSubject (rawStem "test" hs i)) ∧
    (processHorizontalCorrections hs (some row)).map Correction.subject =
        ((List.range hs.length).filter (qTagged "correction" hs row)).map
          (fun i => capitalizeSubject (rawStem "correction" hs i)) ∧
    (processHorizontalAttendance hs (some row)).map AttendanceMonth.month =
        ((List.range hs.length).filter (qAttendance hs row)).map
          (fun i => capitalizeFirstLetter (dropRightStr (toLowerStr (hs.getD i "")) 8)) ∧
    capitalizeSubject "social_science" = "Social Science" :=
  ⟨subjects_subject_rendering hs row, activities_subject_rendering hs row,
    assignments_subject_rendering hs row, tests_subject_rendering hs row,
    corrections_subject_rendering hs row, attendance_month_rendering hs row, by decide⟩

/-! ### Claim C2 -/

/-- Claim C2 counterexample: in the Test group `x_test1` the percentage
cell is present and non-empty but unparsable while the max-marks column is
absent (so max marks is 0); the claim demands percentage 0, but the decoder
leaves the JavaScript NaN (`none`), not 0. -/
theorem C2_counterexample :
    (processHorizontalTests ["x_test1", "x_test1_percentage"] (some ["T", "abc"])).map
        Test.percentage ≠ [some 0] := by
  decide

/-- Claim C2 (amended): percentage resolution for Test and AttendanceMonth
groups — a present, non-empty, parsable percentage cell is used verbatim;
otherwise the percentage is numerator / denominator * 100 when the
denominator is positive; otherwise it is 0 — except that a Test group whose
percentage cell is present and non-empty but unparsable while max marks is
not positive keeps the JavaScript NaN instead of 0.  (Attendance months are
only materialized with positive working days, so their percentage follows
the claim as stated.)  The claim's scenario decodes to exactly the stated
Test entity. -/
theorem C2_percentage_derivation :
    (∀ hs row target mm mo j v, satIdx hs target = some j → truthy (cell row j) = true →
      parseFloatOpt (cell row j) = some v →
      testPercentage hs row target mm mo = some v) ∧
    (∀ hs row target mm mo j, satIdx hs target = some j → truthy (cell row j) = true →
      parseFloatOpt (cell row j) = none → 0 < mm →
      testPercentage hs row target mm mo = some ((mo : ℚ) / (mm : ℚ) * 100)) ∧
    (∀ hs row target mm mo j, satIdx hs target = some j → truthy (cell row j) = true →
      parseFloatOpt (cell row j) = none → mm ≤ 0 →
      testPercentage hs row target mm mo = none) ∧
    (∀ hs row target mm mo j, satIdx hs target = some j → truthy (cell row j) = false →
      testPercentage hs row target mm mo =
        (if 0 < mm then some ((mo : ℚ) / (mm : ℚ) * 100) else some 0)) ∧
    (∀ hs row target mm mo, satIdx hs target = none →
      testPercentage hs row target mm mo =
        (if 0 < mm then some ((mo : ℚ) / (mm : ℚ) * 100) else some 0)) ∧
    (∀ hs row target wd pr j v, 0 < wd → satIdx hs target = some j →
      truthy (cell row j) = true → parseFloatOpt (cell row j) = some v →
      attendancePercentage hs row target wd pr = some v) ∧
    (∀ hs row target wd pr j, 0 < wd → satIdx hs target = some j →
      truthy (cell row j) = true → parseFloatOpt (cell row j) = none →
      attendancePercentage hs row target wd pr = some ((pr : ℚ) / (wd : ℚ) * 100)) ∧
    (∀ hs row target wd pr j, 0 < wd → satIdx hs target = some j →
      truthy (cell row j) = false →
      attendancePercentage hs row target wd pr = some ((pr : ℚ) / (wd : ℚ) * 100)) ∧
    (∀ hs row target wd pr, 0 < wd → satIdx hs target = none →
      attendancePercentage hs row target wd pr = some ((pr : ℚ) / (wd : ℚ) * 100)) ∧
    processHorizontalTests
        ["admission_no", "math_test1", "math_test1_max_marks", "math_test1_marks_obtained"]
        (some ["10234", "Unit Test", "50", "45"]) =
      [{ subject := "Math", name := "Unit Test", date := "", maxMarks := 50,
         marksObtained := 45, percentage := some 90, grade := "" }] := by
  refine ⟨?_, ?_, ?_, ?_, ?_, ?_, ?_, ?_, ?_, by with_unfolding_all decide⟩
  · intro hs row target mm mo j v hsat ht hp
    unfold testPercentage
    rw [hsat]
    simp [ht, hp]
  · intro hs row target mm mo j hsat ht hp hmm
    unfold testPercentage
    rw [hsat]
    simp [ht, hp, hmm]
  · intro hs row target mm mo j hsat ht hp hmm
    unfold testPercentage
    rw [hsat]
    simp [ht, hp]
    omega
  · intro hs row target mm mo j hsat ht
    unfold testPercentage
    rw [hsat]
    simp [ht]
  · intro hs row target mm mo hsat
    unfold testPercentage
    rw [hsat]
  · intro hs row target wd pr j v hwd hsat ht hp
    unfold attendancePercentage
    rw [hsat]
    simp [ht, hp]
  · intro hs row target wd pr j hwd hsat ht hp
    unfold attendancePercentage
    rw [hsat]
    simp [ht, hp, hwd]
  · intro hs row target wd pr j hwd hsat ht
    unfold attendancePercentage
    rw [hsat]
    simp [ht, hwd]
  · intro hs row target wd pr hwd hsat
    unfold attendancePercentage
    rw [hsat]
    simp [hwd]

/-- Claim C2 witness: a present, parsable percentage cell is used verbatim
(88.5 = 177/2). -/
theorem C2_percentage_derivation_witness :
    testPercentage ["math_test1_percentage"] ["88.5"] "math_test1_percentage" 0 0 =
      some (177 / 2) :=
  C2_percentage_derivation.1 ["math_test1_percentage"] ["88.5"] "math_test1_percentage" 0 0 0
    (177 / 2) (by decide) (by decide) (by with_unfolding_all decide)

/-! ### Claim C3 -/

/-- Claim C3: the row locator (the spec contract `locate`, of which
`findStudentByAdmissionNo` is the source instantiation at key column
`admission_no`) resolves the key column case-insensitively — NotFound when
the column is absent — then scans the data rows in order and returns the
first row whose key cell equals the key value by exact string equality
(undefined cells never match), NotFound when no row matches; it is a pure
function of its inputs. -/
theorem C3_row_locator (values : List (List String)) (headers : List String)
    (keyCol keyVal : String) :
    (headers.findIdx? (fun h => toLowerStr h == toLowerStr keyCol) = none →
      locate values headers keyCol keyVal = none) ∧
    (∀ r, locate values headers keyCol keyVal = some r ↔
      ∃ idx pre post,
        headers.findIdx? (fun h => toLowerStr h == toLowerStr keyCol) = some idx ∧
        values.drop 1 = pre ++ r :: post ∧
        r.get? idx = some keyVal ∧
        ∀ r2 ∈ pre, r2.get? idx ≠ some keyVal) ∧
    ((∀ idx, headers.findIdx? (fun h => toLowerStr h == toLowerStr keyCol) = some idx →
        ∀ r ∈ values.drop 1, r.get? idx ≠ some keyVal) →
      locate values headers keyCol keyVal = none) ∧
    findStudentByAdmissionNo values headers keyVal =
      locate values headers "admission_no" keyVal := by
  refine ⟨?_, ?_, ?_, ?_⟩
  · intro h
    by_cases hl : values.length < 2
    · simp [locate, hl]
    · simp [locate, hl, h]
  · intro r
    unfold locate
    by_cases hl : values.length < 2
    · rw [if_pos hl]
      have hdropnil : values.drop 1 = [] := List.drop_eq_nil_of_le (by omega)
      constructor
      · intro h; cases h
      · rintro ⟨idx, pre, post, -, hdec, -, -⟩
        rw [hdropnil] at hdec
        simp at hdec
    · rw [if_neg hl]
      cases hidx : headers.findIdx? (fun h => toLowerStr h == toLowerStr keyCol) with
      | none =>
        constructor
        · intro h; cases h
        · rintro ⟨idx, pre, post, hconf, -, -, -⟩
          cases hconf
      | some idx =>
        rw [List.find?_eq_some]
        constructor
        · rintro ⟨hp, as, bs, hx, hall⟩
          refine ⟨idx, as, bs, rfl, hx, by simpa using hp, ?_⟩
          intro r2 hr2
          have := hall r2 hr2
          simpa using this
        · rintro ⟨idx2, pre, post, hidx2, hdec, hkey, hpre⟩
          injection hidx2 with hidx2
          subst hidx2
          refine ⟨by simpa using hkey, pre, post, hdec, ?_⟩
          intro a ha
          simpa using hpre a ha
  · intro h
    by_cases hl : values.length < 2
    · simp [locate, hl]
    · unfold locate
      rw [if_neg hl]
      cases hidx : headers.findIdx? (fun h => toLowerStr h == toLowerStr keyCol) with
      | none => rfl
      | some idx =>
        exact List.find?_eq_none.mpr (fun x hx => by simpa using h idx hidx x hx)
  · unfold findStudentByAdmissionNo locate
    have hlit : toLowerStr "admission_no" = "admission_no" := by decide
    rw [hlit]

/-- Claim C3 witness: the key column is matched case-insensitively and the
first of the two rows carrying the key value is returned. -/
theorem C3_row_locator_witness :
    locate [["Admission_No", "name"], ["99999", "x"], ["10234", "y"], ["10234", "z"]]
        ["Admission_No", "name"] "admission_no" "10234" = some ["10234", "y"] :=
  ((C3_row_locator [["Admission_No", "name"], ["99999", "x"], ["10234", "y"], ["10234", "z"]]
        ["Admission_No", "name"] "admission_no" "10234").2.1 ["10234", "y"]).mpr
    ⟨0, [["99999", "x"]], [["10234", "z"]], by decide, by decide, by decide, by decide⟩

/-! ### Claim C4 -/

/-- Claim C4: the recent-tests selection sorts the decoded Test entities
descending by the calendar date read day-month-year from the dd-mm-yyyy
field, keeps ties in decode order (stability, expressed per tie class),
truncates to the first 5, and projects each entry with marks rendered as
"<obtained>/<max>" and percentage and grade passed through.  The
well-formedness hypothesis records the claim's restriction to dd-mm-yyyy
dates; it is what makes the embedded lexicographic (year, month, day)
comparator agree with the JavaScript Date order the source computes. -/
theorem C4_recent_selection (tests : List Test)
    (h : ∀ t ∈ tests, validDMY t.date = true) :
    ∃ sorted : List Test,
      List.Perm tests sorted ∧
      List.Sorted testLe sorted ∧
      (∀ k : Int,
        sorted.filter (fun t => dateKey t == k) = tests.filter (fun t => dateKey t == k)) ∧
      selectRecent tests =
        (sorted.take 5).map (fun t =>
          { subject := t.subject, name := t.name, date := t.date,
            marks := toString t.marksObtained ++ "/" ++ toString t.maxMarks,
            percentage := t.percentage, grade := t.grade }) := by
  refine ⟨List.insertionSort testLe tests, (List.perm_insertionSort testLe tests).symm,
    List.sorted_insertionSort testLe tests, ?_, rfl⟩
  intro k
  refine filter_insertionSort testLe _ ?_ tests
  intro a b ha hb
  have hka : dateKey a = k := by simpa using ha
  have hkb : dateKey b = k := by simpa using hb
  unfold testLe
  omega

/-- Claim C4 witness: two concrete tests with well-formed dd-mm-yyyy
dates. -/
theorem C4_recent_selection_witness :
    ∃ sorted : List Test,
      List.Perm
        [{ subject := "Ta", name := "A", date := "05-04-2024", maxMarks := 10,
           marksObtained := 5, percentage := some 50, grade := "" },
         { subject := "Tb", name := "B", date := "01-05-2024", maxMarks := 20,
           marksObtained := 10, percentage := some 50, grade := "" }] sorted ∧
      List.Sorted testLe sorted ∧
      (∀ k : Int,
        sorted.filter (fun t => dateKey t == k) =
          List.filter (fun t => dateKey t == k)
            [{ subject := "Ta", name := "A", date := "05-04-2024", maxMarks := 10,
               marksObtained := 5, percentage := some 50, grade := "" },
             { subject := "Tb", name := "B", date := "01-05-2024", maxMarks := 20,
               marksObtained := 10, percentage := some 50, grade := "" }]) ∧
      selectRecent
          [{ subject := "Ta", name := "A", date := "05-04-2024", maxMarks := 10,
             marksObtained := 5, percentage := some 50, grade := "" },
           { subject := "Tb", name := "B", date := "01-05-2024", maxMarks := 20,
             marksObtained := 10, percentage := some 50, grade := "" }] =
        (sorted.take 5).map (fun t =>
          { subject := t.subject, name := t.name, date := t.date,
            marks := toString t.marksObtained ++ "/" ++ toString t.maxMarks,
            percentage := t.percentage, grade := t.grade }) :=
  C4_recent_selection
    [{ subject := "Ta", name := "A", date := "05-04-2024", maxMarks := 10,
       marksObtained := 5, percentage := some 50, grade := "" },
     { subject := "Tb", name := "B", date := "01-05-2024", maxMarks := 20,
       marksObtained := 10, percentage := some 50, grade := "" }] (by decide)

/-! ### Claim C6 -/

/-- Claim C6 counterexample: the legacy variant's aggregation
(src/unnamed/part_000 231, cited by the claim) divides by the month count
with no zero-month guard, so zero attendance months render as "NaN%" — not
the "0.0%" the claim asserts. -/
theorem C6_counterexample :
    (summarizeLegacy [] [] []).attendancePercentage = "NaN%" ∧
    (summarizeLegacy [] [] []).attendancePercentage ≠ "0.0%" := by
  exact ⟨by decide, by decide⟩

/-- Claim C6 (amended): in the horizontal pipeline's summarize (app.js
141-163) the claim holds as stated: completedAssignments counts status
exactly "complete", pendingAssignments exactly "pending" (any other status
is counted in neither bucket), totalSubjects counts the SubjectProgress
entities, and the overall attendance percentage is the arithmetic mean of
the month percentages — 0 for zero months, never NaN — rendered with
exactly one decimal digit and a "%" suffix.  The legacy variant omits the
zero-month guard and renders "NaN%" there, the single divergence forced by
the counterexample. -/
theorem C6_summary_statistics (asg : List Assignment) (att : List AttendanceMonth)
    (subs : List SubjectProgress) (hatt : ∀ m ∈ att, (m.percentage).isSome = true) :
    (summarize asg att subs).totalSubjects = subs.length ∧
    (summarize asg att subs).completedAssignments =
      asg.countP (fun a => a.status == "complete") ∧
    (summarize asg att subs).pendingAssignments =
      asg.countP (fun a => a.status == "pending") ∧
    (summarize asg att subs).completedAssignments + (summarize asg att subs).pendingAssignments +
      asg.countP (fun a => !(a.status == "complete") && !(a.status == "pending")) = asg.length ∧
    (att = [] → (summarize asg att subs).attendancePercentage = "0.0%") ∧
    (att ≠ [] → (summarize asg att subs).attendancePercentage =
      toFixed1 (((att.map (fun m => (m.percentage).getD 0)).sum) / (att.length : ℚ)) ++ "%") ∧
    (∃ pre d, d < 10 ∧
      (summarize asg att subs).attendancePercentage = pre ++ "." ++ toString d ++ "%") := by
  have htot : (summarize asg att subs).totalSubjects = subs.length := rfl
  have hcomp : (summarize asg att subs).completedAssignments =
      asg.countP (fun a => a.status == "complete") := by
    simp [summarize, List.countP_eq_length_filter]
  have hpend : (summarize asg att subs).pendingAssignments =
      asg.countP (fun a => a.status == "pending") := by
    simp [summarize, List.countP_eq_length_filter]
  have hdisj : ∀ a : Assignment, (a.status == "complete") = true →
      (a.status == "pending") = false := by
    intro a ha
    have hst : a.status = "complete" := by simpa using ha
    rw [hst]
    decide
  have hempty : att = [] → (summarize asg att subs).attendancePercentage = "0.0%" := by
    intro he
    subst he
    have hred : (summarize asg [] subs).attendancePercentage =
        jsToFixed1 (some 0) ++ "%" := rfl
    rw [hred]
    with_unfolding_all decide
  have hmean : att ≠ [] → (summarize asg att subs).attendancePercentage =
      toFixed1 (((att.map (fun m => (m.percentage).getD 0)).sum) / (att.length : ℚ)) ++ "%" := by
    intro hne
    have hlen : 0 < att.length := List.length_pos.mpr hne
    have hlen0 : att.length ≠ 0 := by omega
    have hred : (summarize asg att subs).attendancePercentage =
        jsToFixed1 (if att.length > 0 then
          jsDiv (att.foldl (fun s m => jsAdd s m.percentage) (some 0)) att.length
        else some 0) ++ "%" := rfl
    rw [hred, if_pos hlen, foldl_jsAdd att hatt 0]
    simp [jsDiv, hlen0, jsToFixed1]
  refine ⟨htot, hcomp, hpend, ?_, hempty, hmean, ?_⟩
  · rw [hcomp, hpend]
    exact countP_partition _ _ hdisj asg
  · by_cases he : att = []
    · refine ⟨"0", 0, by omega, ?_⟩
      rw [hempty he]
      with_unfolding_all decide
    · obtain ⟨pre, d, hd, hfx⟩ :=
        toFixed1_shape (((att.map (fun m => (m.percentage).getD 0)).sum) / (att.length : ℚ))
      exact ⟨pre, d, hd, by rw [hmean he, hfx]⟩

/-- Claim C6 witness: one "complete" assignment, one "late" assignment (in
neither bucket), two months at 85 and 95 percent — rendered mean
"90.0%". -/
theorem C6_summary_statistics_witness :
    (summarize
        [{ subject := "Math", name := "A1", assignedDate := "", dueDate := "",
           status := "complete", remarks := "" },
         { subject := "Sci", name := "A2", assignedDate := "", dueDate := "",
           status := "late", remarks := "" }]
        [{ month := "April", workingDays := 20, present := 17, absent := 3,
           percentage := some 85 },
         { month := "May", workingDays := 20, present := 19, absent := 1,
           percentage := some 95 }]
        []).attendancePercentage = "90.0%" ∧
    (summarize
        [{ subject := "Math", name := "A1", assignedDate := "", dueDate := "",
           status := "complete", remarks := "" },
         { subject := "Sci", name := "A2", assignedDate := "", dueDate := "",
           status := "late", remarks := "" }]
        [{ month := "April", workingDays := 20, present := 17, absent := 3,
           percentage := some 85 },
         { month := "May", workingDays := 20, present := 19, absent := 1,
           percentage := some 95 }]
        []).completedAssignments = 1 := by
  have h := C6_summary_statistics
    [{ subject := "Math", name := "A1", assignedDate := "", dueDate := "",
       status := "complete", remarks := "" },
     { subject := "Sci", name := "A2", assignedDate := "", dueDate := "",
       status := "late", remarks := "" }]
    [{ month := "April", workingDays := 20, present := 17, absent := 3,
       percentage := some 85 },
     { month := "May", workingDays := 20, present := 19, absent := 1,
       percentage := some 95 }]
    [] (by decide)
  exact ⟨(h.2.2.2.2.2.1 (by decide)).trans (by with_unfolding_all decide),
    (h.2.1).trans (by decide)⟩

/-! ### Claim C7 -/

/-- Claim C7: a satellite column absent from the header resolves to the
field type's default (empty text, 0 for numbers, "pending" for status), an
unparsable or empty numeric cell resolves to 0, and in every such case the
remaining satellites are still decoded and the entity is still emitted —
the decoders are total functions, so no MissingColumn or MalformedCell
failure exists. -/
theorem C7_satellite_defaults (hs row : List String) (i : Nat) (subject num : String) :
    (matchGroupNum "test" (toLowerStr (hs.getD i "")) = some (subject, num) →
      truthy (cell row i) = true →
      mkTest hs row i subject num ∈ processHorizontalTests hs (some row) ∧
      (satIdx hs (subject ++ "_test" ++ num ++ "_max_marks") = none →
        (mkTest hs row i subject num).maxMarks = 0) ∧
      (∀ j, satIdx hs (subject ++ "_test" ++ num ++ "_max_marks") = some j →
        parseIntOpt (cell row j) = none → (mkTest hs row i subject num).maxMarks = 0) ∧
      (satIdx hs (subject ++ "_test" ++ num ++ "_date") = none →
        (mkTest hs row i subject num).date = "") ∧
      (satIdx hs (subject ++ "_test" ++ num ++ "_grade") = none →
        (mkTest hs row i subject num).grade = "")) ∧
    (matchGroupNum "assignment" (toLowerStr (hs.getD i "")) = some (subject, num) →
      truthy (cell row i) = true →
      mkAssignment hs row i subject num ∈ processHorizontalAssignments hs (some row) ∧
      (satIdx hs (subject ++ "_assignment" ++ num ++ "_status") = none →
        (mkAssignment hs row i subject num).status = "pending") ∧
      (satIdx hs (subject ++ "_assignment" ++ num ++ "_remarks") = none →
        (mkAssignment hs row i subject num).remarks = "")) := by
  constructor
  · intro hm ht
    have hlen : i < hs.length := by
      by_contra hge
      push_neg at hge
      have hcell : hs.getD i "" = "" := by
        rw [List.getD_eq_getElem?_getD, List.getElem?_eq_none hge]
        rfl
      rw [hcell] at hm
      have : matchGroupNum "test" (toLowerStr "") = none := by decide
      rw [this] at hm
      cases hm
    refine ⟨?_, ?_, ?_, ?_, ?_⟩
    · rw [tests_eq]
      refine List.mem_map.mpr ⟨i, List.mem_filter.mpr ⟨List.mem_range.mpr hlen, ?_⟩, ?_⟩
      · unfold qTagged
        rw [hm]
        simp [ht]
      · unfold eTests
        rw [hm]
    · intro hnone
      simp [mkTest, satInt, hnone]
    · intro j hj hparse
      simp only [mkTest, satInt, hj]
      by_cases htr : truthy (cell row j)
      · simp [htr, hparse]
      · simp [htr]
    · intro hnone
      simp [mkTest, satText, hnone]
    · intro hnone
      simp [mkTest, satText, hnone]
  · intro hm ht
    have hlen : i < hs.length := by
      by_contra hge
      push_neg at hge
      have hcell : hs.getD i "" = "" := by
        rw [List.getD_eq_getElem?_getD, List.getElem?_eq_none hge]
        rfl
      rw [hcell] at hm
      have : matchGroupNum "assignment" (toLowerStr "") = none := by decide
      rw [this] at hm
      cases hm
    refine ⟨?_, ?_, ?_⟩
    · rw [assignments_eq]
      refine List.mem_map.mpr ⟨i, List.mem_filter.mpr ⟨List.mem_range.mpr hlen, ?_⟩, ?_⟩
      · unfold qTagged
        rw [hm]
        simp [ht]
      · unfold eAssignments
        rw [hm]
    · intro hnone
      simp only [mkAssignment, satText, hnone]
      decide
    · intro hnone
      simp [mkAssignment, satText, hnone]

/-- Claim C7 witness: a test group whose max-marks, date and grade columns
are all absent is still emitted, with max marks 0. -/
theorem C7_satellite_defaults_witness :
    mkTest ["math_test1"] ["T"] 0 "math" "1" ∈
        processHorizontalTests ["math_test1"] (some ["T"]) ∧
    (mkTest ["math_test1"] ["T"] 0 "math" "1").maxMarks = 0 := by
  obtain ⟨h1, h2, -, -, -⟩ :=
    (C7_satellite_defaults ["math_test1"] ["T"] 0 "math" "1").1 (by decide) (by decide)
  exact ⟨h1, h2 (by decide)⟩

/-! ### Claim C8 -/

/-- Claim C8: when the requested admission number matches no row of the
Students sheet, the pipeline fails with the distinguishable not-found error
and produces no document — the failure is never converted into an empty
result. -/
theorem C8_not_found (d : SheetsData) (adm : String)
    (h : findStudentByAdmissionNo d.students (d.students.headD []) adm = none) :
    processStudentData d adm =
      Except.error ("Student with admission number " ++ adm ++ " not found") := by
  unfold processStudentData
  simp only [h]

/-- Claim C8 witness: requesting an identifier absent from a concrete
Students sheet yields the error, not a document. -/
theorem C8_not_found_witness :
    processStudentData
        { students := [["admission_no"], ["11111"]], subjects := [], activities := [],
          assignments := [], tests := [], corrections := [], attendance := [] } "22222" =
      Except.error ("Student with admission number " ++ "22222" ++ " not found") :=
  C8_not_found
    { students := [["admission_no"], ["11111"]], subjects := [], activities := [],
      assignments := [], tests := [], corrections := [], attendance := [] }
    "22222" (by decide)

/-! ### Claim C10 -/

/-- Claim C10: building the recent-tests selection does not disturb the
decoded Test collection — in every successfully assembled document the
tests field is exactly the decoder output for the tests sheet, in decode
order, unchanged by the date sort and truncation that produce
recentTests. -/
theorem C10_tests_unchanged (d : SheetsData) (adm : String) (doc : StudentDoc)
    (h : processStudentData d adm = Except.ok doc) :
    doc.tests =
      processHorizontalTests (d.tests.headD [])
        (findStudentByAdmissionNo d.tests (d.tests.headD []) adm) := by
  unfold processStudentData at h
  cases hf : findStudentByAdmissionNo d.students (d.students.headD []) adm with
  | none =>
    simp only [hf] at h
    exact absurd h (by simp)
  | some row =>
    simp only [hf] at h
    injection h with h2
    rw [← h2]

/-- Claim C10 witness: a concrete full pipeline run whose output tests field
is the decoder output, while recentTests carries the projected copy. -/
theorem C10_tests_unchanged_witness :
    ((⟨⟨"Asha", "", "10234", "", "", "", "/api/placeholder/120/120"⟩, [],
        [⟨"Math", "Unit Test", "", "45/50", some 90, ""⟩], [], [],
        [⟨"Math", "Unit Test", "", 50, 45, some 90, ""⟩], [], [],
        ⟨0, 0, 0, "0.0%"⟩⟩ : StudentDoc)).tests =
      processHorizontalTests
        ([["admission_no", "math_test1", "math_test1_max_marks", "math_test1_marks_obtained"],
          ["10234", "Unit Test", "50", "45"]].headD [])
        (findStudentByAdmissionNo
          [["admission_no", "math_test1", "math_test1_max_marks", "math_test1_marks_obtained"],
           ["10234", "Unit Test", "50", "45"]]
          ([["admission_no", "math_test1", "math_test1_max_marks", "math_test1_marks_obtained"],
            ["10234", "Unit Test", "50", "45"]].headD [])
          "10234") :=
  C10_tests_unchanged
    ⟨[["admission_no", "name"], ["10234", "Asha"]], [], [], [],
      [["admission_no", "math_test1", "math_test1_max_marks", "math_test1_marks_obtained"],
       ["10234", "Unit Test", "50", "45"]], [], []⟩
    "10234"
    (⟨⟨"Asha", "", "10234", "", "", "", "/api/placeholder/120/120"⟩, [],
       [⟨"Math", "Unit Test", "", "45/50", some 90, ""⟩], [], [],
       [⟨"Math", "Unit Test", "", 50, 45, some 90, ""⟩], [], [],
       ⟨0, 0, 0, "0.0%"⟩⟩ : StudentDoc)
    (by with_unfolding_all rfl)

end StudentPortfolio
